import Mathlib

/-!
Shallow embedding of two resource handlers of the terraform-provider-aws
repository: the CloudWatch Logs `LogStream` handler
(internal/service/logs/stream.go) and the Cognito `UserPoolClient` handler
(internal/service/cognitoidp/user_pool_client.go), together with theorems
settling the specification claims about them.

Conventions:
- Go pointer types (`*string`, `*int64`, `*bool`) become `Option`;
  `aws.StringValue` becomes `stringValue` (nil ↦ "").
- Go `string` is Lean `String`; `len` of a Go string is its byte length,
  embedded as the sum of UTF-8 sizes of the characters.
- Terraform-plugin-framework values (`types.String`, `types.Int64`,
  `types.Bool`, `types.Set`, `types.List`) become small inductives with a
  `null` case and a known-value case (the unknown case never arises in the
  code paths under study, which only read values produced by the remote
  response or by import-identifier parsing).
- Fallible Go code returning `(T, error)` becomes `Except` or an explicit
  pair/outcome type when the pair shape itself matters.
-/

set_option autoImplicit false
set_option maxRecDepth 8192

namespace TfAws

/-! ## Framework value model -/

/-- A terraform-plugin-framework string value: null or a known string. -/
inductive FwString where
  | null
  | value (s : String)
  deriving DecidableEq, Repr

/-- A terraform-plugin-framework int64 value: null or a known integer. -/
inductive FwInt64 where
  | null
  | value (i : Int)
  deriving DecidableEq, Repr

/-- A terraform-plugin-framework bool value: null or a known boolean. -/
inductive FwBool where
  | null
  | value (b : Bool)
  deriving DecidableEq, Repr

/-- A terraform-plugin-framework set of strings: null or a known list of
elements (we keep the element order of the remote response; set identity is
not needed by any claim). -/
inductive FwSet where
  | null
  | value (xs : List String)
  deriving DecidableEq, Repr

/-- A terraform-plugin-framework list with typed object elements. -/
inductive FwList (α : Type) where
  | null
  | value (xs : List α)
  deriving DecidableEq, Repr

/-- Model of `list.ElementsAs` into a Go slice: a null list yields the empty slice,
a value list yields its elements. (Element-type mismatches cannot occur in
this embedding, so the diagnostics path of `ElementsAs` is never taken.) -/
def FwList.elementsAs {α : Type} : FwList α → List α
  | .null => []
  | .value xs => xs

/-! ## flex conversion helpers

The `internal/framework/flex` package of the repository is not under `src/`;
only its callers are. Each helper below is modelled from the spec: the spec's
invariant is that computed fields are populated only from the remote
response, with "legacy" variants mapping a nil pointer to the type's zero
value (as the SDKv2-migrated schema requires) and non-legacy variants
mapping nil to null. -/

/-- Modelled from the spec: `flex.StringToFramework` (internal/framework/flex,
not under src/) converts a `*string` to a framework value, nil becoming null. -/
def StringToFramework : Option String → FwString
  | none => .null
  | some s => .value s

/-- Modelled from the spec: `flex.StringToFrameworkLegacy` converts a
`*string` to a framework value, nil becoming the empty string (zero value). -/
def StringToFrameworkLegacy : Option String → FwString
  | none => .value ""
  | some s => .value s

/-- Modelled from the spec: `flex.StringFromFramework` converts a framework
string to a `*string`, null becoming nil. -/
def StringFromFramework : FwString → Option String
  | .null => none
  | .value s => some s

/-- Modelled from the spec: `flex.Int64ToFramework` converts a `*int64` to a
framework value, nil becoming null. -/
def Int64ToFramework : Option Int → FwInt64
  | none => .null
  | some i => .value i

/-- Modelled from the spec: `flex.Int64ToFrameworkLegacy` converts a `*int64`
to a framework value, nil becoming 0 (zero value). -/
def Int64ToFrameworkLegacy : Option Int → FwInt64
  | none => .value 0
  | some i => .value i

/-- Modelled from the spec: `flex.BoolToFramework` converts a `*bool` to a
framework value, nil becoming null. -/
def BoolToFramework : Option Bool → FwBool
  | none => .null
  | some b => .value b

/-- Modelled from the spec: `flex.FlattenFrameworkStringSetLegacy` converts a
`[]*string` to a framework set, a nil slice becoming the empty set (zero
value) and elements dereferenced with nil as "". -/
def FlattenFrameworkStringSetLegacy : Option (List String) → FwSet
  | none => .value []
  | some xs => .value xs

/-- Modelled from the spec: `flex.StringToFrameworkARN` converts a `*string`
holding an ARN to a framework ARN value, nil becoming null. -/
def StringToFrameworkARN : Option String → FwString
  | none => .null
  | some s => .value s

/-- Modelled from the spec: `flex.ARNStringFromFramework` converts a
framework ARN value to a `*string`, null becoming nil. -/
def ARNStringFromFramework : FwString → Option String
  | .null => none
  | .value s => some s

/-- Modelled from the spec: `flex.BoolFromFramework` converts a framework
bool to a `*bool`, null becoming nil. -/
def BoolFromFramework : FwBool → Option Bool
  | .null => none
  | .value b => some b

/-! ## AWS SDK and error model -/

/-- Model of `aws.StringValue`: dereference a `*string`, nil becoming "". -/
def stringValue : Option String → String
  | none => ""
  | some s => s

/-- An AWS API error, identified by its error code, carrying a message. -/
structure AWSErr where
  code : String
  msg : String
  deriving DecidableEq, Repr

/-- The code `cloudwatchlogs.ErrCodeResourceNotFoundException` and
`cognitoidentityprovider.ErrCodeResourceNotFoundException` are the same
code string. -/
def errCodeResourceNotFoundException : String := "ResourceNotFoundException"

/-- The code `cognitoidentityprovider.ErrCodeConcurrentModificationException`. -/
def errCodeConcurrentModificationException : String := "ConcurrentModificationException"

/-- Model of `tfawserr.ErrCodeEquals` (an outside library): true when the error is
non-nil, is an AWS error, and carries exactly the given code. A nil error
never equals a code. -/
def errCodeEquals : Option AWSErr → String → Bool
  | none, _ => false
  | some e, c => e.code == c

/-! ## Go strings.Split -/

/-- Character-list core of Go `strings.Split` with a one-character separator:
splits around every occurrence of the separator; the result is never empty
(an input without separators yields a single segment, possibly empty). -/
def splitChars (sep : Char) : List Char → List (List Char)
  | [] => [[]]
  | c :: cs =>
    let r := splitChars sep cs
    if c = sep then [] :: r
    else
      match r with
      | [] => [[c]]
      | h :: t => (c :: h) :: t

/-- Go `strings.Split s sep` for a one-character separator. -/
def goSplit (s : String) (sep : Char) : List String :=
  (splitChars sep s.data).map String.mk

/-- Go `len` of a string: its byte length (sum of UTF-8 sizes). -/
def goLen (s : String) : Nat :=
  (s.data.map Char.utf8Size).sum

/-- Lemma: `splitChars` never returns the empty list, mirroring Go's guarantee that
`strings.Split` returns at least one segment. -/
theorem splitChars_ne_nil (sep : Char) (l : List Char) : splitChars sep l ≠ [] := by
  cases l with
  | nil => simp [splitChars]
  | cons c cs =>
    simp only [splitChars]
    split
    · simp
    · split
      · simp
      · simp

/-! ## CloudWatch Logs LogStream handler (internal/service/logs/stream.go) -/

/-- Model of `cloudwatchlogs.LogStream` (the fields the handler reads). -/
structure LogStream where
  logStreamName : Option String
  arn : Option String
  deriving DecidableEq, Repr

/-- One `cloudwatchlogs.DescribeLogStreamsOutput` page. -/
structure DescribeLogStreamsOutput where
  logStreams : List LogStream
  deriving DecidableEq, Repr

/-- The remote listing a `DescribeLogStreamsPages` call would walk: the pages
delivered in order (a page pointer may be nil), and, when the listing does
not complete, the error the fetch after the delivered pages fails with.
When the page callback stops the pagination early, later fetches never
happen, so a recorded `finalErr` is only observed if the scan runs off the
end of `pages`. -/
structure RemoteListing where
  pages : List (Option DescribeLogStreamsOutput)
  finalErr : Option AWSErr
  deriving DecidableEq, Repr

/-- The page callback of `FindLogStreamByTwoPartKey`, iterated over the
delivered pages: a nil page is skipped; in a non-nil page the first stream
whose dereferenced `LogStreamName` equals `name` is selected and the scan
stops; otherwise the scan continues to the next page. -/
def scanPages (name : String) : List (Option DescribeLogStreamsOutput) → Option LogStream
  | [] => none
  | none :: rest => scanPages name rest
  | some page :: rest =>
    match page.logStreams.find? (fun v => stringValue v.logStreamName == name) with
    | some v => some v
    | none => scanPages name rest

/-- The error component of `FindLogStreamByTwoPartKey`'s result:
`resource.NotFoundError` (built when the listing fails with
`ResourceNotFoundException`), `tfresource.EmptyResultError` (built when the
scan finds no match), or the raw listing error. -/
inductive FindError where
  | notFoundError (lastError : AWSErr)
  | emptyResult
  | otherError (e : AWSErr)
  deriving DecidableEq, Repr

/-- Model of `FindLogStreamByTwoPartKey`, embedded with the same result shape as the
Go function: a pair of an optional stream and an optional error. The scan
walks the delivered pages; if it stops on a match the pagination error never
materialises; afterwards a `ResourceNotFoundException` listing error becomes
a `NotFoundError`, any other listing error is returned as is, and a
completed scan with no match becomes an `EmptyResultError`. -/
def FindLogStreamByTwoPartKey (remote : RemoteListing) (name : String) :
    Option LogStream × Option FindError :=
  let output := scanPages name remote.pages
  let err : Option AWSErr := if output.isSome then none else remote.finalErr
  if errCodeEquals err errCodeResourceNotFoundException then
    match err with
    | some e => (none, some (.notFoundError e))
    | none => (none, some .emptyResult)
  else
    match err with
    | some e => (none, some (.otherError e))
    | none =>
      match output with
      | some v => (some v, none)
      | none => (none, some .emptyResult)

/-- Modelled from the spec: `tfresource.NotFound` (internal/tfresource, not
under src/) recognises a not-found condition; per the spec both the remote
"not found" error and the empty-result case of the paginated scan count as
not found (the handler "treats the set as exhausted when the last page
yields no match, returning a not-found error in that case"), while other
errors do not. -/
def NotFound : Option FindError → Bool
  | some (.notFoundError _) => true
  | some .emptyResult => true
  | some (.otherError _) => false
  | none => false

/-- Outcome of a Read operation: local state silently removed, new state
written, an error surfaced, or a crash (nil dereference / out-of-range). -/
inductive ReadOutcome (σ : Type) where
  | removed
  | ok (st : σ)
  | error (msg : String)
  | panic
  deriving DecidableEq, Repr

/-- The attributes `resourceStreamRead` writes back. -/
structure LogStreamState where
  arn : String
  name : String
  deriving DecidableEq, Repr

/-- Model of `resourceStreamRead`: find the stream; if the resource is not new and
the find error is a not-found, drop state without error; any other error is
surfaced; otherwise the found stream's arn and name are written. (The
nil-stream-with-nil-error case would dereference nil in Go; it is proved
unreachable below.) -/
def resourceStreamRead (isNew : Bool) (id : String) (remote : RemoteListing) :
    ReadOutcome LogStreamState :=
  let r := FindLogStreamByTwoPartKey remote id
  if !isNew && NotFound r.2 then .removed
  else
    match r.2 with
    | some _ => .error ("reading CloudWatch Logs Log Stream (" ++ id ++ ")")
    | none =>
      match r.1 with
      | some ls => .ok ⟨stringValue ls.arn, stringValue ls.logStreamName⟩
      | none => .panic

/-- Model of `resourceStreamDelete`: issue the remote delete (whose outcome is the
`remoteErr` argument); a `ResourceNotFoundException` is success; any other
error is surfaced; otherwise success. -/
def resourceStreamDelete (id : String) (remoteErr : Option AWSErr) :
    Except String Unit :=
  if errCodeEquals remoteErr errCodeResourceNotFoundException then .ok ()
  else
    match remoteErr with
    | some e => .error ("deleting CloudWatch Logs Log Stream (" ++ id ++ "): " ++ e.msg)
    | none => .ok ()

/-- Model of `resourceStreamImport`: split the identifier on ":"; exactly two
segments populate (log group name, log stream name); any other segment count
is a descriptive error. (The Go code checks `len(parts) != 2` before
indexing, so the two-element match is exactly the success case.) -/
def resourceStreamImport (id : String) : Except String (String × String) :=
  match goSplit id ':' with
  | [logGroupName, logStreamName] => .ok (logGroupName, logStreamName)
  | _ =>
    .error ("wrong format of import ID (" ++ id ++ "), use: log-group-name:log-stream-name")

/-- Model of `validStreamName`: one error if the value contains a colon, one error if
its byte length is outside [1, 512]; both lists appended in source order. -/
def validStreamName (value : String) (k : String) : List String :=
  (if value.data.contains ':' then ["colons not allowed in " ++ k] else []) ++
    (if goLen value < 1 ∨ goLen value > 512 then
      [k ++ " must be between 1 and 512 characters: " ++ value]
    else [])

/-! ## Cognito UserPoolClient handler
(internal/service/cognitoidp/user_pool_client.go) -/

/-- Model of `cognitoidentityprovider.TokenValidityUnitsType`. -/
structure TokenValidityUnitsType where
  AccessToken : Option String
  IdToken : Option String
  RefreshToken : Option String
  deriving DecidableEq, Repr

/-- Model of `cognitoidentityprovider.AnalyticsConfigurationType`. -/
structure AnalyticsConfigurationType where
  ApplicationArn : Option String
  ApplicationId : Option String
  ExternalId : Option String
  RoleArn : Option String
  UserDataShared : Option Bool
  deriving DecidableEq, Repr

/-- Model of `cognitoidentityprovider.UserPoolClientType`: the remote response fields
the handler's `update` mapping reads. -/
structure UserPoolClientType where
  AccessTokenValidity : Option Int
  AllowedOAuthFlows : Option (List String)
  AllowedOAuthFlowsUserPoolClient : Option Bool
  AllowedOAuthScopes : Option (List String)
  AnalyticsConfiguration : Option AnalyticsConfigurationType
  AuthSessionValidity : Option Int
  CallbackURLs : Option (List String)
  ClientId : Option String
  ClientName : Option String
  ClientSecret : Option String
  DefaultRedirectURI : Option String
  EnablePropagateAdditionalUserContextData : Option Bool
  EnableTokenRevocation : Option Bool
  ExplicitAuthFlows : Option (List String)
  IdTokenValidity : Option Int
  LogoutURLs : Option (List String)
  PreventUserExistenceErrors : Option String
  ReadAttributes : Option (List String)
  RefreshTokenValidity : Option Int
  SupportedIdentityProviders : Option (List String)
  TokenValidityUnits : Option TokenValidityUnitsType
  UserPoolId : Option String
  WriteAttributes : Option (List String)
  deriving DecidableEq, Repr

/-- The `analytics_configuration` nested block object. -/
structure analyticsConfiguration where
  ApplicationARN : FwString
  ApplicationID : FwString
  ExternalID : FwString
  RoleARN : FwString
  UserDataShared : FwBool
  deriving DecidableEq, Repr

/-- Model of `analyticsConfiguration.expand` on a non-nil receiver (the nil-receiver
guard of the Go method is unreachable from `expandAnaylticsConfiguration`,
which only calls it on a slice element). -/
def analyticsConfiguration.expand (ac : analyticsConfiguration) :
    AnalyticsConfigurationType :=
  { ApplicationArn := ARNStringFromFramework ac.ApplicationARN
    ApplicationId := StringFromFramework ac.ApplicationID
    ExternalId := StringFromFramework ac.ExternalID
    RoleArn := ARNStringFromFramework ac.RoleARN
    UserDataShared := BoolFromFramework ac.UserDataShared }

/-- Model of `expandAnaylticsConfiguration`: read the list's elements into a slice;
a one-element slice expands to the remote struct, anything else is nil. -/
def expandAnaylticsConfiguration (list : FwList analyticsConfiguration) :
    Option AnalyticsConfigurationType :=
  match list.elementsAs with
  | [ac] => some ac.expand
  | _ => none

/-- Model of `flattenAnaylticsConfiguration`: a nil remote struct is the null list;
otherwise a one-element list built field by field. -/
def flattenAnaylticsConfiguration (ac : Option AnalyticsConfigurationType) :
    FwList analyticsConfiguration :=
  match ac with
  | none => .null
  | some a =>
    .value [{ ApplicationARN := StringToFrameworkARN a.ApplicationArn
              ApplicationID := StringToFramework a.ApplicationId
              ExternalID := StringToFramework a.ExternalId
              RoleARN := StringToFrameworkARN a.RoleArn
              UserDataShared := BoolToFramework a.UserDataShared }]

/-- The `token_validity_units` nested block object. -/
structure tokenValidityUnits where
  AccessToken : FwString
  IdToken : FwString
  RefreshToken : FwString
  deriving DecidableEq, Repr

/-- Model of `tokenValidityUnits.expand` on a non-nil receiver. -/
def tokenValidityUnits.expand (tvu : tokenValidityUnits) : TokenValidityUnitsType :=
  { AccessToken := StringFromFramework tvu.AccessToken
    IdToken := StringFromFramework tvu.IdToken
    RefreshToken := StringFromFramework tvu.RefreshToken }

/-- Model of `expandTokenValidityUnits`: read the list's elements into a slice; a
one-element slice expands to the remote struct, anything else is nil. -/
def expandTokenValidityUnits (list : FwList tokenValidityUnits) :
    Option TokenValidityUnitsType :=
  match list.elementsAs with
  | [tvu] => some tvu.expand
  | _ => none

/-- Model of `flattenTokenValidityUnits`: a nil struct, or one whose three unit
fields are all nil, is the null list; otherwise a one-element list built
field by field. -/
def flattenTokenValidityUnits (tvu : Option TokenValidityUnitsType) :
    FwList tokenValidityUnits :=
  match tvu with
  | none => .null
  | some t =>
    if t.AccessToken.isNone && t.IdToken.isNone && t.RefreshToken.isNone then .null
    else
      .value [{ AccessToken := StringToFramework t.AccessToken
                IdToken := StringToFramework t.IdToken
                RefreshToken := StringToFramework t.RefreshToken }]

/-- Model of `resourceUserPoolClientData`: the 24 state fields of the resource. -/
structure resourceUserPoolClientData where
  AccessTokenValidity : FwInt64
  AllowedOauthFlows : FwSet
  AllowedOauthFlowsUserPoolClient : FwBool
  AllowedOauthScopes : FwSet
  AnalyticsConfiguration : FwList analyticsConfiguration
  AuthSessionValidity : FwInt64
  CallbackUrls : FwSet
  ClientSecret : FwString
  DefaultRedirectUri : FwString
  EnablePropagateAdditionalUserContextData : FwBool
  EnableTokenRevocation : FwBool
  ExplicitAuthFlows : FwSet
  GenerateSecret : FwBool
  ID : FwString
  IdTokenValidity : FwInt64
  LogoutUrls : FwSet
  Name : FwString
  PreventUserExistenceErrors : FwString
  ReadAttributes : FwSet
  RefreshTokenValidity : FwInt64
  SupportedIdentityProviders : FwSet
  TokenValidityUnits : FwList tokenValidityUnits
  UserPoolID : FwString
  WriteAttributes : FwSet
  deriving DecidableEq, Repr

/-- Model of `resourceUserPoolClientData.update`: overwrite the receiver's fields
from the remote `UserPoolClientType`, one assignment per source line
(lines 523-545 of user_pool_client.go). -/
def resourceUserPoolClientData.update (data : resourceUserPoolClientData)
    (incoming : UserPoolClientType) : resourceUserPoolClientData :=
  { data with
    AccessTokenValidity := Int64ToFrameworkLegacy incoming.AccessTokenValidity
    AllowedOauthFlows := FlattenFrameworkStringSetLegacy incoming.AllowedOAuthFlows
    AllowedOauthFlowsUserPoolClient := BoolToFramework incoming.AllowedOAuthFlowsUserPoolClient
    AllowedOauthScopes := FlattenFrameworkStringSetLegacy incoming.AllowedOAuthScopes
    AnalyticsConfiguration := flattenAnaylticsConfiguration incoming.AnalyticsConfiguration
    AuthSessionValidity := Int64ToFramework incoming.AuthSessionValidity
    CallbackUrls := FlattenFrameworkStringSetLegacy incoming.CallbackURLs
    ClientSecret := StringToFrameworkLegacy incoming.ClientSecret
    DefaultRedirectUri := StringToFrameworkLegacy incoming.DefaultRedirectURI
    EnablePropagateAdditionalUserContextData :=
      BoolToFramework incoming.EnablePropagateAdditionalUserContextData
    EnableTokenRevocation := BoolToFramework incoming.EnableTokenRevocation
    ExplicitAuthFlows := FlattenFrameworkStringSetLegacy incoming.ExplicitAuthFlows
    ID := StringToFramework incoming.ClientId
    IdTokenValidity := Int64ToFrameworkLegacy incoming.IdTokenValidity
    LogoutUrls := FlattenFrameworkStringSetLegacy incoming.LogoutURLs
    Name := StringToFramework incoming.ClientName
    PreventUserExistenceErrors := StringToFrameworkLegacy incoming.PreventUserExistenceErrors
    ReadAttributes := FlattenFrameworkStringSetLegacy incoming.ReadAttributes
    RefreshTokenValidity := Int64ToFramework incoming.RefreshTokenValidity
    SupportedIdentityProviders := FlattenFrameworkStringSetLegacy incoming.SupportedIdentityProviders
    TokenValidityUnits := flattenTokenValidityUnits incoming.TokenValidityUnits
    UserPoolID := StringToFramework incoming.UserPoolId
    WriteAttributes := FlattenFrameworkStringSetLegacy incoming.WriteAttributes }

/-- Model of `types.String.ValueString()`: the known value, or "" when null. -/
def FwString.valueString : FwString → String
  | .null => ""
  | .value s => s

/-- Modelled from the spec: `tfresource.RetryWhenAWSErrCodeEquals`
(internal/tfresource, not under src/) retries an operation while it fails
with the given AWS error code, within a timeout budget. Time is embedded as
retry fuel: `attempts i` is the outcome the remote returns for the i-th
call, `fuel` is the number of retries the timeout window still allows. A
success is returned at once; an error with a different code is returned at
once; an error with the given code is retried until the fuel runs out, at
which point the last error is surfaced. -/
def retryWhenAWSErrCodeEquals {α : Type} (attempts : Nat → Except AWSErr α)
    (code : String) : Nat → Nat → Except AWSErr α
  | start, 0 => attempts start
  | start, fuel + 1 =>
    match attempts start with
    | .ok a => .ok a
    | .error e =>
      if e.code == code then retryWhenAWSErrCodeEquals attempts code (start + 1) fuel
      else .error e

/-- The constant `2*time.Minute`, the Update retry budget, in seconds. -/
def updateUserPoolClientTimeoutSeconds : Nat := 120

/-- The `Create` method: build the request from the plan, call the remote
creation (its outcome is the `remote` argument), and on success persist
`config.update` applied to the returned pool client; a remote error is
surfaced and nothing is persisted. -/
def userPoolClientCreate (config plan : resourceUserPoolClientData)
    (remote : Except AWSErr UserPoolClientType) :
    Except String resourceUserPoolClientData :=
  match remote with
  | .error e =>
    .error ("creating Cognito User Pool Client (" ++ plan.Name.valueString ++ "): " ++ e.msg)
  | .ok poolClient => .ok (config.update poolClient)

/-- Modelled from the spec: the result of `FindCognitoUserPoolClientByID`,
which is not under src/; per the spec, Read "fetches by key",
distinguishing found, not found, and failure. -/
inductive FetchResult where
  | found (poolClient : UserPoolClientType)
  | fetchNotFound
  | failure (e : AWSErr)
  deriving DecidableEq, Repr

/-- The `Read` method: fetch by key; on a not-found the local state is
removed without error; on failure the error is surfaced; on success the
state is rewritten via `state.update`. -/
def userPoolClientRead (state : resourceUserPoolClientData) (remote : FetchResult) :
    ReadOutcome resourceUserPoolClientData :=
  match remote with
  | .fetchNotFound => .removed
  | .failure e =>
    .error ("reading Cognito User Pool Client (" ++ state.ID.valueString ++ "): " ++ e.msg)
  | .found poolClient => .ok (state.update poolClient)

/-- The `Update` method: call the remote update through
`retryWhenAWSErrCodeEquals` with the `ConcurrentModificationException`
code and the two-minute budget (embedded as `budget` retries); on success
persist `config.update` applied to the returned pool client; an error is
surfaced and nothing is persisted. -/
def userPoolClientUpdate (config plan : resourceUserPoolClientData) (budget : Nat)
    (attempts : Nat → Except AWSErr UserPoolClientType) :
    Except String resourceUserPoolClientData :=
  match retryWhenAWSErrCodeEquals attempts errCodeConcurrentModificationException 0 budget with
  | .error e =>
    .error ("updating Cognito User Pool Client (" ++ plan.ID.valueString ++ "): " ++ e.msg)
  | .ok poolClient => .ok (config.update poolClient)

/-- The `Delete` method: issue the remote delete (its outcome is the
`remoteErr` argument); a `ResourceNotFoundException` is success; any other
error is surfaced; otherwise success. -/
def userPoolClientDelete (state : resourceUserPoolClientData)
    (remoteErr : Option AWSErr) : Except String Unit :=
  if errCodeEquals remoteErr errCodeResourceNotFoundException then .ok ()
  else
    match remoteErr with
    | some e =>
      .error ("deleting Cognito User Pool Client (" ++ state.ID.valueString ++ "): " ++ e.msg)
    | none => .ok ()

/-- Outcome of an import operation whose Go code may index out of range:
either a crash, or a finished run carrying the diagnostics it accumulated
and the state attributes it set. -/
inductive ImportOutcome (σ : Type) where
  | panic
  | done (diags : List String) (st : σ)
  deriving DecidableEq, Repr

/-- The two attributes `ImportState` sets. -/
structure UserPoolClientImportedState where
  id : Option String
  userPoolID : Option String
  deriving DecidableEq, Repr

/-- The `ImportState` method of the user pool client, embedded exactly as
written: split on "/", add an error diagnostic when the segment count is
not 2, and then - with no early return - index `parts[0]` and `parts[1]`
and set both attributes. Indexing `parts[1]` on a one-segment split is an
out-of-range crash; a three-or-more-segment split sets both attributes
despite the error diagnostic. -/
def userPoolClientImportState (requestID : String) :
    ImportOutcome UserPoolClientImportedState :=
  let parts := goSplit requestID '/'
  let diags : List String :=
    if parts.length ≠ 2 then
      ["Resource Import Invalid ID: wrong format of import ID (" ++ requestID ++
        "), use: user-pool-id/client-id"]
    else []
  match parts[0]?, parts[1]? with
  | some userPoolId, some clientId =>
    .done diags { id := some clientId, userPoolID := some userPoolId }
  | _, _ => .panic

/-! ## Shared values and helper lemmas -/

/-- A resource data value with every field null (the lexically first
constructor of each field type). -/
def dataAllNull : resourceUserPoolClientData :=
  { AccessTokenValidity := .null, AllowedOauthFlows := .null
    AllowedOauthFlowsUserPoolClient := .null, AllowedOauthScopes := .null
    AnalyticsConfiguration := .null, AuthSessionValidity := .null
    CallbackUrls := .null, ClientSecret := .null, DefaultRedirectUri := .null
    EnablePropagateAdditionalUserContextData := .null
    EnableTokenRevocation := .null, ExplicitAuthFlows := .null
    GenerateSecret := .null, ID := .null, IdTokenValidity := .null
    LogoutUrls := .null, Name := .null, PreventUserExistenceErrors := .null
    ReadAttributes := .null, RefreshTokenValidity := .null
    SupportedIdentityProviders := .null, TokenValidityUnits := .null
    UserPoolID := .null, WriteAttributes := .null }

/-- A remote pool-client response with every field nil. -/
def pcAllNil : UserPoolClientType :=
  { AccessTokenValidity := none, AllowedOAuthFlows := none
    AllowedOAuthFlowsUserPoolClient := none, AllowedOAuthScopes := none
    AnalyticsConfiguration := none, AuthSessionValidity := none
    CallbackURLs := none, ClientId := none, ClientName := none
    ClientSecret := none, DefaultRedirectURI := none
    EnablePropagateAdditionalUserContextData := none
    EnableTokenRevocation := none, ExplicitAuthFlows := none
    IdTokenValidity := none, LogoutURLs := none
    PreventUserExistenceErrors := none, ReadAttributes := none
    RefreshTokenValidity := none, SupportedIdentityProviders := none
    TokenValidityUnits := none, UserPoolId := none, WriteAttributes := none }

/-- The streams the delivered pages contain, in order, skipping nil pages. -/
def deliveredStreams : List (Option DescribeLogStreamsOutput) → List LogStream
  | [] => []
  | none :: rest => deliveredStreams rest
  | some page :: rest => page.logStreams ++ deliveredStreams rest

/-- The page scan computes the first exact name match among the delivered
streams, nil pages contributing nothing. -/
theorem scanPages_eq_find? (name : String) :
    ∀ pages, scanPages name pages =
      (deliveredStreams pages).find? (fun v => stringValue v.logStreamName == name)
  | [] => rfl
  | none :: rest => by
    simpa [scanPages, deliveredStreams] using scanPages_eq_find? name rest
  | some page :: rest => by
    simp only [scanPages, deliveredStreams, List.find?_append,
      ← scanPages_eq_find? name rest]
    cases page.logStreams.find? (fun v => stringValue v.logStreamName == name) <;>
      simp [Option.or]

/-- Full characterisation of `FindLogStreamByTwoPartKey` in terms of the
first exact match among the delivered streams. -/
theorem findLogStream_eq (remote : RemoteListing) (name : String) :
    FindLogStreamByTwoPartKey remote name =
      match (deliveredStreams remote.pages).find?
          (fun v => stringValue v.logStreamName == name) with
      | some v => (some v, none)
      | none =>
        match remote.finalErr with
        | some e =>
          if e.code == errCodeResourceNotFoundException then
            (none, some (.notFoundError e))
          else (none, some (.otherError e))
        | none => (none, some .emptyResult) := by
  unfold FindLogStreamByTwoPartKey
  rw [← scanPages_eq_find?]
  cases h : scanPages name remote.pages with
  | some v => simp [errCodeEquals]
  | none =>
    cases remote.finalErr with
    | none => simp [errCodeEquals]
    | some e =>
      by_cases hc : e.code == errCodeResourceNotFoundException <;>
        simp [errCodeEquals, hc]

/-- Delivered streams distribute over page-list concatenation. -/
theorem deliveredStreams_append :
    ∀ ps qs, deliveredStreams (ps ++ qs) = deliveredStreams ps ++ deliveredStreams qs
  | [], _ => rfl
  | none :: ps, qs => by
    simp [deliveredStreams, deliveredStreams_append ps qs]
  | some p :: ps, qs => by
    simp [deliveredStreams, deliveredStreams_append ps qs]

/-! ## Claim theorems -/

/-- C1: for the UserPoolClient handler, an import identifier that does not
split into exactly two segments on "/" does NOT merely fail with a
descriptive error: a one-segment identifier crashes (out-of-range index
after the missing early return), and a three-segment identifier populates
both key fields despite the error diagnostic. Two-segment identifiers, and
the LogStream handler's ":" import, behave as the claim states. This
theorem evaluates the code at those inputs. -/
theorem c1_import_segment_count_behaviour :
    userPoolClientImportState "abc" = .panic ∧
    userPoolClientImportState "a/b" =
      .done [] { id := some "b", userPoolID := some "a" } ∧
    userPoolClientImportState "a/b/c" =
      .done ["Resource Import Invalid ID: wrong format of import ID (a/b/c), use: user-pool-id/client-id"]
        { id := some "b", userPoolID := some "a" } ∧
    resourceStreamImport "g:s" = .ok ("g", "s") ∧
    resourceStreamImport "abc" =
      .error "wrong format of import ID (abc), use: log-group-name:log-stream-name" ∧
    (∀ id : String,
      (∃ g s, resourceStreamImport id = .ok (g, s)) ↔ (goSplit id ':').length = 2) := by
  refine ⟨by decide, by decide, by decide, rfl, rfl, ?_⟩
  intro id
  match h : goSplit id ':' with
  | [] => simp [resourceStreamImport, h]
  | [a] => simp [resourceStreamImport, h]
  | [a, b] => simp [resourceStreamImport, h]
  | a :: b :: c :: t => simp [resourceStreamImport, h]

/-- C2: `FindLogStreamByTwoPartKey` returns exactly the first delivered
stream whose dereferenced name equals the requested name; with no match, a
`ResourceNotFoundException` listing failure becomes a `NotFoundError`, any
other failure is surfaced as is, and an exhausted scan becomes an
empty-result error; and the page scan short-circuits: pages after a match
are never consulted. -/
theorem c2_find_first_exact_match :
    (∀ (remote : RemoteListing) (name : String),
      FindLogStreamByTwoPartKey remote name =
        match (deliveredStreams remote.pages).find?
            (fun v => stringValue v.logStreamName == name) with
        | some v => (some v, none)
        | none =>
          match remote.finalErr with
          | some e =>
            if e.code == errCodeResourceNotFoundException then
              (none, some (.notFoundError e))
            else (none, some (.otherError e))
          | none => (none, some .emptyResult)) ∧
    (∀ (name : String) (ps qs : List (Option DescribeLogStreamsOutput)),
      scanPages name (ps ++ qs) = (scanPages name ps).or (scanPages name qs)) := by
  refine ⟨findLogStream_eq, ?_⟩
  intro name ps qs
  rw [scanPages_eq_find?, scanPages_eq_find?, scanPages_eq_find?,
    deliveredStreams_append, List.find?_append]

/-- C10: `FindLogStreamByTwoPartKey` never returns both a nil stream and a
nil error, and a nil page is skipped by the scan without fault. -/
theorem c10_find_never_nil_nil :
    (∀ (remote : RemoteListing) (name : String),
      (FindLogStreamByTwoPartKey remote name).1.isSome = true ∨
        (FindLogStreamByTwoPartKey remote name).2.isSome = true) ∧
    (∀ (name : String) (ps : List (Option DescribeLogStreamsOutput)),
      scanPages name (none :: ps) = scanPages name ps) := by
  constructor
  · intro remote name
    rw [findLogStream_eq]
    cases hm : (deliveredStreams remote.pages).find?
        (fun v => stringValue v.logStreamName == name) with
    | some v => simp
    | none =>
      cases remote.finalErr with
      | none => simp
      | some e =>
        by_cases hc : e.code == errCodeResourceNotFoundException <;> simp [hc]
  · intro name ps
    rfl

/-- C5: for a resource already in state (not new) whose remote counterpart
is gone, Read drops the local state and reports no error: the LogStream
handler does so whenever the find reports a not-found condition, and the
UserPoolClient handler does so whenever the fetch reports not-found. -/
theorem c5_read_after_remote_deletion :
    (∀ (id : String) (remote : RemoteListing),
      NotFound (FindLogStreamByTwoPartKey remote id).2 = true →
      resourceStreamRead false id remote = .removed) ∧
    (∀ state : resourceUserPoolClientData,
      userPoolClientRead state .fetchNotFound = .removed) := by
  constructor
  · intro id remote h
    simp [resourceStreamRead, h]
  · intro state
    rfl

/-- C5 witness: a concrete remote whose listing is empty (the stream was
deleted out of band) makes Read drop state without error. -/
theorem c5_witness :
    resourceStreamRead false "s" { pages := [], finalErr := none } = .removed :=
  c5_read_after_remote_deletion.1 "s" { pages := [], finalErr := none } (by decide)

/-- C6: both Delete handlers succeed exactly when the remote delete
succeeded or failed with `ResourceNotFoundException`; every other remote
failure is surfaced as an error. -/
theorem c6_delete_idempotent :
    (∀ (id : String) (remoteErr : Option AWSErr),
      resourceStreamDelete id remoteErr = .ok () ↔
        (remoteErr = none ∨
          errCodeEquals remoteErr errCodeResourceNotFoundException = true)) ∧
    (∀ (state : resourceUserPoolClientData) (remoteErr : Option AWSErr),
      userPoolClientDelete state remoteErr = .ok () ↔
        (remoteErr = none ∨
          errCodeEquals remoteErr errCodeResourceNotFoundException = true)) := by
  constructor
  all_goals
    intro x remoteErr
    rcases remoteErr with _ | e
    · simp [resourceStreamDelete, userPoolClientDelete, errCodeEquals]
    · by_cases hc : e.code == errCodeResourceNotFoundException <;>
        simp [resourceStreamDelete, userPoolClientDelete, errCodeEquals, hc]

/-- C8: the stream-name validator reports at least one error exactly when
the name contains a colon or its byte length (Go `len`) is outside
[1, 512]; colon-free names of byte lengths 1 and 512 pass, and the empty
string, a 513-byte name, and a name with a colon are rejected. -/
theorem c8_valid_stream_name :
    (∀ v k : String, validStreamName v k ≠ [] ↔
      (v.data.contains ':' = true ∨ goLen v < 1 ∨ goLen v > 512)) ∧
    validStreamName "a" "name" = [] ∧
    validStreamName (String.mk (List.replicate 512 'a')) "name" = [] ∧
    validStreamName "" "name" ≠ [] ∧
    validStreamName (String.mk (List.replicate 513 'a')) "name" ≠ [] ∧
    validStreamName "a:b" "name" ≠ [] := by
  refine ⟨?_, by decide, by decide, by decide, by decide, by decide⟩
  intro v k
  unfold validStreamName
  split <;> split <;> simp_all

/-- C3 counterexample: `update` does not copy every one of the 24 state
fields from the remote response - `generate_secret` is kept from the local
data, so two local datas differing only there update to different states
under the same remote response. -/
theorem c3_counterexample :
    ({ dataAllNull with GenerateSecret := .value true } :
        resourceUserPoolClientData).update pcAllNil ≠
      dataAllNull.update pcAllNil ∧
    (({ dataAllNull with GenerateSecret := .value true } :
        resourceUserPoolClientData).update pcAllNil).GenerateSecret =
      .value true := by
  exact ⟨by decide, rfl⟩

/-- C3 (amended): `update` copies 23 of the 24 state fields - every field
except the config-only `generate_secret`, which it leaves untouched - from
the remote response via the flatten helpers, the server-assigned client id
included; its result does not depend on the prior data except through
`generate_secret`; and Create, Read, and Update persist state only as
`config.update` applied to the returned pool client. -/
theorem c3_update_copies_remote_fields :
    (∀ (data : resourceUserPoolClientData) (pc : UserPoolClientType),
      (data.update pc).AccessTokenValidity = Int64ToFrameworkLegacy pc.AccessTokenValidity ∧
      (data.update pc).AllowedOauthFlows = FlattenFrameworkStringSetLegacy pc.AllowedOAuthFlows ∧
      (data.update pc).AllowedOauthFlowsUserPoolClient = BoolToFramework pc.AllowedOAuthFlowsUserPoolClient ∧
      (data.update pc).AllowedOauthScopes = FlattenFrameworkStringSetLegacy pc.AllowedOAuthScopes ∧
      (data.update pc).AnalyticsConfiguration = flattenAnaylticsConfiguration pc.AnalyticsConfiguration ∧
      (data.update pc).AuthSessionValidity = Int64ToFramework pc.AuthSessionValidity ∧
      (data.update pc).CallbackUrls = FlattenFrameworkStringSetLegacy pc.CallbackURLs ∧
      (data.update pc).ClientSecret = StringToFrameworkLegacy pc.ClientSecret ∧
      (data.update pc).DefaultRedirectUri = StringToFrameworkLegacy pc.DefaultRedirectURI ∧
      (data.update pc).EnablePropagateAdditionalUserContextData =
        BoolToFramework pc.EnablePropagateAdditionalUserContextData ∧
      (data.update pc).EnableTokenRevocation = BoolToFramework pc.EnableTokenRevocation ∧
      (data.update pc).ExplicitAuthFlows = FlattenFrameworkStringSetLegacy pc.ExplicitAuthFlows ∧
      (data.update pc).ID = StringToFramework pc.ClientId ∧
      (data.update pc).IdTokenValidity = Int64ToFrameworkLegacy pc.IdTokenValidity ∧
      (data.update pc).LogoutUrls = FlattenFrameworkStringSetLegacy pc.LogoutURLs ∧
      (data.update pc).Name = StringToFramework pc.ClientName ∧
      (data.update pc).PreventUserExistenceErrors = StringToFrameworkLegacy pc.PreventUserExistenceErrors ∧
      (data.update pc).ReadAttributes = FlattenFrameworkStringSetLegacy pc.ReadAttributes ∧
      (data.update pc).RefreshTokenValidity = Int64ToFramework pc.RefreshTokenValidity ∧
      (data.update pc).SupportedIdentityProviders =
        FlattenFrameworkStringSetLegacy pc.SupportedIdentityProviders ∧
      (data.update pc).TokenValidityUnits = flattenTokenValidityUnits pc.TokenValidityUnits ∧
      (data.update pc).UserPoolID = StringToFramework pc.UserPoolId ∧
      (data.update pc).WriteAttributes = FlattenFrameworkStringSetLegacy pc.WriteAttributes ∧
      (data.update pc).GenerateSecret = data.GenerateSecret) ∧
    (∀ (a b : resourceUserPoolClientData) (pc : UserPoolClientType),
      a.update pc = { b.update pc with GenerateSecret := a.GenerateSecret }) ∧
    (∀ (config plan : resourceUserPoolClientData) (pc : UserPoolClientType),
      userPoolClientCreate config plan (.ok pc) = .ok (config.update pc)) ∧
    (∀ (state : resourceUserPoolClientData) (pc : UserPoolClientType),
      userPoolClientRead state (.found pc) = .ok (state.update pc)) ∧
    (∀ (config plan : resourceUserPoolClientData) (budget : Nat)
        (attempts : Nat → Except AWSErr UserPoolClientType) (pc : UserPoolClientType),
      retryWhenAWSErrCodeEquals attempts errCodeConcurrentModificationException 0 budget =
        .ok pc →
      userPoolClientUpdate config plan budget attempts = .ok (config.update pc)) := by
  refine ⟨?_, ?_, ?_, ?_, ?_⟩
  · intro data pc
    repeat constructor
  · intro a b pc
    rfl
  · intro config plan pc
    rfl
  · intro state pc
    rfl
  · intro config plan budget attempts pc h
    unfold userPoolClientUpdate
    rw [h]

/-- C3 witness: the amended theorem's Update conjunct at a concrete input
(a remote that succeeds immediately with the all-nil client). -/
theorem c3_witness :
    userPoolClientUpdate dataAllNull dataAllNull 0 (fun _ => .ok pcAllNil) =
      .ok (dataAllNull.update pcAllNil) :=
  c3_update_copies_remote_fields.2.2.2.2 dataAllNull dataAllNull 0
    (fun _ => .ok pcAllNil) pcAllNil rfl

/-- Unfolding equation of the retry loop at zero fuel. -/
theorem retry_zero {α : Type} (attempts : Nat → Except AWSErr α) (code : String)
    (start : Nat) :
    retryWhenAWSErrCodeEquals attempts code start 0 = attempts start := rfl

/-- Unfolding equation of the retry loop at positive fuel. -/
theorem retry_succ {α : Type} (attempts : Nat → Except AWSErr α) (code : String)
    (start f : Nat) :
    retryWhenAWSErrCodeEquals attempts code start (f + 1) =
      match attempts start with
      | .ok a => .ok a
      | .error e =>
        if e.code == code then retryWhenAWSErrCodeEquals attempts code (start + 1) f
        else .error e := rfl

/-- The retry loop passes over a block of retryable errors: if the first
`k` attempts from `start` all fail with the retried code and the fuel
allows `k` retries, the loop proceeds to attempt `start + k` with the
remaining fuel. -/
theorem retry_skip {α : Type} (attempts : Nat → Except AWSErr α) (code : String) :
    ∀ (k start fuel : Nat), k ≤ fuel →
      (∀ j, j < k → ∃ m, attempts (start + j) = Except.error ⟨code, m⟩) →
      retryWhenAWSErrCodeEquals attempts code start fuel =
        retryWhenAWSErrCodeEquals attempts code (start + k) (fuel - k) := by
  intro k
  induction k with
  | zero => intro start fuel _ _; rfl
  | succ k ih =>
    intro start fuel hk h
    obtain ⟨f, rfl⟩ : ∃ f, fuel = f + 1 := ⟨fuel - 1, by omega⟩
    obtain ⟨m, hm⟩ := h 0 (by omega)
    rw [Nat.add_zero] at hm
    have step : retryWhenAWSErrCodeEquals attempts code start (f + 1) =
        retryWhenAWSErrCodeEquals attempts code (start + 1) f := by
      rw [retry_succ, hm]
      simp
    rw [step]
    have h' : ∀ j, j < k → ∃ m, attempts (start + 1 + j) = Except.error ⟨code, m⟩ := by
      intro j hj
      have hh := h (j + 1) (by omega)
      rwa [show start + (j + 1) = start + 1 + j by omega] at hh
    rw [ih (start + 1) f (by omega) h']
    congr 1 <;> omega

/-- A successful attempt is returned unchanged, whatever fuel remains. -/
theorem retry_ok {α : Type} (attempts : Nat → Except AWSErr α) (code : String)
    (start fuel : Nat) {a : α} (h : attempts start = .ok a) :
    retryWhenAWSErrCodeEquals attempts code start fuel = .ok a := by
  cases fuel with
  | zero => simpa [retryWhenAWSErrCodeEquals] using h
  | succ f =>
    unfold retryWhenAWSErrCodeEquals
    rw [h]

/-- An attempt failing with a different code is surfaced unchanged,
whatever fuel remains. -/
theorem retry_other_error {α : Type} (attempts : Nat → Except AWSErr α)
    (code : String) (start fuel : Nat) {e : AWSErr}
    (h : attempts start = .error e) (hc : e.code ≠ code) :
    retryWhenAWSErrCodeEquals attempts code start fuel = .error e := by
  cases fuel with
  | zero => simpa [retryWhenAWSErrCodeEquals] using h
  | succ f =>
    unfold retryWhenAWSErrCodeEquals
    rw [h]
    simp [hc]

/-- C4: the Update retry loop retries exactly on the
`ConcurrentModificationException` code, within its budget (the two-minute
window embedded as retry fuel): a run of such conflicts followed by a
success within the budget persists the returned client via the update
mapping; a run of such conflicts followed by a differently-coded failure
within the budget surfaces that error without persisting; and a conflict on
every attempt the budget allows surfaces the last conflict without
persisting. -/
theorem c4_update_retry_on_concurrent_modification :
    (∀ (config plan : resourceUserPoolClientData) (budget : Nat)
        (attempts : Nat → Except AWSErr UserPoolClientType) (i : Nat)
        (pc : UserPoolClientType),
      i ≤ budget →
      (∀ j, j < i → ∃ m, attempts j =
        .error ⟨errCodeConcurrentModificationException, m⟩) →
      attempts i = .ok pc →
      userPoolClientUpdate config plan budget attempts = .ok (config.update pc)) ∧
    (∀ (config plan : resourceUserPoolClientData) (budget : Nat)
        (attempts : Nat → Except AWSErr UserPoolClientType) (i : Nat) (e : AWSErr),
      i ≤ budget →
      (∀ j, j < i → ∃ m, attempts j =
        .error ⟨errCodeConcurrentModificationException, m⟩) →
      attempts i = .error e →
      e.code ≠ errCodeConcurrentModificationException →
      userPoolClientUpdate config plan budget attempts =
        .error ("updating Cognito User Pool Client (" ++ plan.ID.valueString ++ "): " ++
          e.msg)) ∧
    (∀ (config plan : resourceUserPoolClientData) (budget : Nat)
        (attempts : Nat → Except AWSErr UserPoolClientType) (m : Nat → String),
      (∀ j, j ≤ budget → attempts j =
        .error ⟨errCodeConcurrentModificationException, m j⟩) →
      userPoolClientUpdate config plan budget attempts =
        .error ("updating Cognito User Pool Client (" ++ plan.ID.valueString ++ "): " ++
          m budget)) := by
  refine ⟨?_, ?_, ?_⟩
  · intro config plan budget attempts i pc hi h hok
    unfold userPoolClientUpdate
    rw [retry_skip attempts errCodeConcurrentModificationException i 0 budget hi
      (by simpa using h), Nat.zero_add]
    rw [retry_ok attempts errCodeConcurrentModificationException i (budget - i) hok]
  · intro config plan budget attempts i e hi h herr hc
    unfold userPoolClientUpdate
    rw [retry_skip attempts errCodeConcurrentModificationException i 0 budget hi
      (by simpa using h), Nat.zero_add]
    rw [retry_other_error attempts errCodeConcurrentModificationException i (budget - i)
      herr hc]
  · intro config plan budget attempts m h
    unfold userPoolClientUpdate
    rw [retry_skip attempts errCodeConcurrentModificationException budget 0 budget
      (Nat.le_refl budget) (fun j hj => ⟨m j, by simpa using h j (Nat.le_of_lt hj)⟩),
      Nat.zero_add, Nat.sub_self, retry_zero, h budget (Nat.le_refl budget)]

/-- C4 witness: one simulated conflict, then success on the second attempt,
within a budget of two retries: the returned client is persisted. -/
theorem c4_witness :
    userPoolClientUpdate dataAllNull dataAllNull 2
      (fun j => if j = 0 then
        .error ⟨errCodeConcurrentModificationException, "conflict"⟩
      else .ok pcAllNil) = .ok (dataAllNull.update pcAllNil) :=
  c4_update_retry_on_concurrent_modification.1 dataAllNull dataAllNull 2
    (fun j => if j = 0 then
      .error ⟨errCodeConcurrentModificationException, "conflict"⟩
    else .ok pcAllNil) 1 pcAllNil (by decide)
    (fun j hj => ⟨"conflict", by simp [Nat.lt_one_iff.mp hj]⟩) rfl

/-- C7: the nested-singleton expansion functions return a non-nil remote
struct exactly when the configuration list has exactly one element; an
empty or null list gives nil; and the one-element case is mapped field by
field onto the remote struct. -/
theorem c7_expand_singleton :
    (∀ list : FwList analyticsConfiguration,
      (expandAnaylticsConfiguration list).isSome = true ↔
        list.elementsAs.length = 1) ∧
    expandAnaylticsConfiguration .null = none ∧
    expandAnaylticsConfiguration (.value []) = none ∧
    (∀ ac : analyticsConfiguration,
      expandAnaylticsConfiguration (.value [ac]) =
        some { ApplicationArn := ARNStringFromFramework ac.ApplicationARN
               ApplicationId := StringFromFramework ac.ApplicationID
               ExternalId := StringFromFramework ac.ExternalID
               RoleArn := ARNStringFromFramework ac.RoleARN
               UserDataShared := BoolFromFramework ac.UserDataShared }) ∧
    (∀ list : FwList tokenValidityUnits,
      (expandTokenValidityUnits list).isSome = true ↔
        list.elementsAs.length = 1) ∧
    expandTokenValidityUnits .null = none ∧
    expandTokenValidityUnits (.value []) = none ∧
    (∀ tvu : tokenValidityUnits,
      expandTokenValidityUnits (.value [tvu]) =
        some { AccessToken := StringFromFramework tvu.AccessToken
               IdToken := StringFromFramework tvu.IdToken
               RefreshToken := StringFromFramework tvu.RefreshToken }) := by
  refine ⟨?_, rfl, rfl, fun _ => rfl, ?_, rfl, rfl, fun _ => rfl⟩
  · intro list
    rcases list with _ | xs
    · simp [expandAnaylticsConfiguration, FwList.elementsAs]
    · match xs with
      | [] => simp [expandAnaylticsConfiguration, FwList.elementsAs]
      | [a] => simp [expandAnaylticsConfiguration, FwList.elementsAs]
      | a :: b :: t => simp [expandAnaylticsConfiguration, FwList.elementsAs]
  · intro list
    rcases list with _ | xs
    · simp [expandTokenValidityUnits, FwList.elementsAs]
    · match xs with
      | [] => simp [expandTokenValidityUnits, FwList.elementsAs]
      | [a] => simp [expandTokenValidityUnits, FwList.elementsAs]
      | a :: b :: t => simp [expandTokenValidityUnits, FwList.elementsAs]

/-- Unfolding equation of `flattenTokenValidityUnits` on a non-nil input. -/
theorem flattenTokenValidityUnits_some (t : TokenValidityUnitsType) :
    flattenTokenValidityUnits (some t) =
      if t.AccessToken.isNone && t.IdToken.isNone && t.RefreshToken.isNone then .null
      else
        .value [{ AccessToken := StringToFramework t.AccessToken
                  IdToken := StringToFramework t.IdToken
                  RefreshToken := StringToFramework t.RefreshToken }] := rfl

/-- Lemma: `StringFromFramework` undoes `StringToFramework`. -/
theorem StringFromFramework_StringToFramework (o : Option String) :
    StringFromFramework (StringToFramework o) = o := by
  cases o <;> rfl

/-- C9: `flattenTokenValidityUnits` returns the null list exactly when its
input is nil or all three unit fields are nil; otherwise it returns the
one-element list whose expansion reproduces the input struct; and a
non-nil struct with all three fields nil does not survive the round trip. -/
theorem c9_flatten_expand_round_trip :
    flattenTokenValidityUnits none = .null ∧
    (∀ t : TokenValidityUnitsType,
      flattenTokenValidityUnits (some t) = .null ↔
        (t.AccessToken = none ∧ t.IdToken = none ∧ t.RefreshToken = none)) ∧
    (∀ t : TokenValidityUnitsType,
      ¬(t.AccessToken = none ∧ t.IdToken = none ∧ t.RefreshToken = none) →
      flattenTokenValidityUnits (some t) =
        .value [{ AccessToken := StringToFramework t.AccessToken
                  IdToken := StringToFramework t.IdToken
                  RefreshToken := StringToFramework t.RefreshToken }] ∧
      expandTokenValidityUnits (flattenTokenValidityUnits (some t)) = some t) ∧
    (∀ t : TokenValidityUnitsType,
      t.AccessToken = none → t.IdToken = none → t.RefreshToken = none →
      expandTokenValidityUnits (flattenTokenValidityUnits (some t)) = none) := by
  refine ⟨rfl, ?_, ?_, ?_⟩
  · intro t
    unfold flattenTokenValidityUnits
    by_cases h : t.AccessToken.isNone && t.IdToken.isNone && t.RefreshToken.isNone <;>
      simp_all [Option.isNone_iff_eq_none]
  · intro t h
    have hb : (t.AccessToken.isNone && t.IdToken.isNone && t.RefreshToken.isNone) = false := by
      simp only [Bool.and_eq_true, Option.isNone_iff_eq_none, ← Bool.not_eq_true] at *
      tauto
    have hf : flattenTokenValidityUnits (some t) =
        .value [{ AccessToken := StringToFramework t.AccessToken
                  IdToken := StringToFramework t.IdToken
                  RefreshToken := StringToFramework t.RefreshToken }] := by
      rw [flattenTokenValidityUnits_some, hb]
      simp
    refine ⟨hf, ?_⟩
    rw [hf]
    show some _ = some t
    rw [Option.some.injEq]
    cases t
    simp [tokenValidityUnits.expand, StringFromFramework_StringToFramework]
  · intro t h1 h2 h3
    rw [flattenTokenValidityUnits_some, h1, h2, h3]
    rfl

/-- C9 witness: a struct with one non-nil unit field survives the round
trip. -/
theorem c9_witness :
    expandTokenValidityUnits (flattenTokenValidityUnits
      (some { AccessToken := some "hours", IdToken := none, RefreshToken := none })) =
    some { AccessToken := some "hours", IdToken := none, RefreshToken := none } :=
  (c9_flatten_expand_round_trip.2.2.1
    { AccessToken := some "hours", IdToken := none, RefreshToken := none }
    (by simp)).2

end TfAws
